import Mathlib

/-!
A shallow embedding of the flight-search backend variants in this
repository (the Sky-Scrapper `server.js` variant, the round-trip
`/api/search` and `/api/search-flex` variant, the request-counter
variant, and the Kiwi.com variant) together with proofs about their
request handlers.

JSON values flowing through the handlers are modelled by `JsVal`.
JavaScript property access, optional chaining, truthiness, `||`, `??`
and `parseFloat` are modelled by the helpers below.  Each HTTP handler
is a pure function from the parsed request, the process environment
and an upstream oracle (a function from the upstream HTTP call to its
response) to the HTTP result, paired with the list of upstream calls
attempted, in order.
-/

/-- A JavaScript/JSON value: `undefined`, `null`, booleans, numbers
(modelled as rationals), strings, arrays and objects. -/
inductive JsVal where
  | jsundefined
  | jsnull
  | bool (b : Bool)
  | num (q : ℚ)
  | str (s : String)
  | arr (elems : List JsVal)
  | obj (fields : List (String × JsVal))

instance : Inhabited JsVal := ⟨.jsundefined⟩

/-- Property read `v[k]` on a non-nullish value: object field lookup,
array `length` and index access, string `length`; `undefined` on
everything else.  Reading a property of `null`/`undefined` throws in
JavaScript, so every reachable read of a possibly nullish value in the
handlers below is modelled explicitly at its use site; `get` itself is
applied only to guarded values. -/
def JsVal.get : JsVal → String → JsVal
  | .obj fs, k => match fs.lookup k with | some v => v | none => .jsundefined
  | .arr xs, k =>
      if k = "length" then .num xs.length
      else match k.toNat? with
        | some i => match xs[i]? with | some v => v | none => .jsundefined
        | none => .jsundefined
  | .str s, k => if k = "length" then .num s.length else .jsundefined
  | _, _ => .jsundefined

/-- Is the value `null` or `undefined`? -/
def JsVal.isNullish : JsVal → Bool
  | .jsundefined => true
  | .jsnull => true
  | _ => false

/-- Optional chaining `v?.k` (also used for `v?.[0]` via the key `"0"`). -/
def JsVal.optChain (v : JsVal) (k : String) : JsVal :=
  if v.isNullish then .jsundefined else v.get k

/-- JavaScript truthiness.  `NaN` does not arise in this model (see
`jsParseFloat`). -/
def JsVal.truthy : JsVal → Bool
  | .jsundefined => false
  | .jsnull => false
  | .bool b => b
  | .num q => q != 0
  | .str s => s != ""
  | .arr _ => true
  | .obj _ => true

/-- The JavaScript `a || b`. -/
def jsOr (a b : JsVal) : JsVal := if a.truthy then a else b

/-- The JavaScript `a ?? b`. -/
def jsCoalesce (a b : JsVal) : JsVal := if a.isNullish then b else a

/-- Value of a digit list read in base 10. -/
def digitsVal (cs : List Char) : ℕ := cs.foldl (fun a c => a * 10 + (c.toNat - 48)) 0

/-- Decimal numeral parsing: an optional sign, integer digits and an
optional fractional part.  This models `parseFloat` on the inputs this
code feeds it (the literal `"0"` fallback and upstream price amounts,
which are decimal numerals); non-numeric input, `NaN` in JavaScript,
is modelled as `0` and is not exercised by any claim. -/
def parseDecimal (s : String) : ℚ :=
  let (sign, cs) : ℚ × List Char :=
    match s.data with
    | '-' :: rest => (-1, rest)
    | '+' :: rest => (1, rest)
    | cs => (1, cs)
  let intPart := cs.takeWhile (·.isDigit)
  let rest := cs.dropWhile (·.isDigit)
  let frac : List Char :=
    match rest with
    | '.' :: r => r.takeWhile (·.isDigit)
    | _ => []
  sign * ((digitsVal intPart : ℚ) + (digitsVal frac : ℚ) / (10 ^ frac.length))

/-- `parseFloat(v)`: numbers pass through (JavaScript re-parses their
decimal rendering, which round-trips), strings are parsed as decimal
numerals. -/
def jsParseFloat : JsVal → ℚ
  | .num q => q
  | .str s => parseDecimal s
  | _ => 0

/-- Rendering of an optional request field into a URL parameter or
template string: an absent (`undefined`) value is interpolated as the
string `"undefined"`, exactly as JavaScript template strings and
`URLSearchParams.append` stringify `undefined`. -/
def jstr : Option String → String
  | some s => s
  | none => "undefined"

/-- Truthiness of an optional string request field (`undefined` and
`""` are falsy). -/
def strTruthy : Option String → Bool
  | some s => s != ""
  | none => false

/-- An optional request-body field as the JavaScript value it holds
(`undefined` when absent). -/
def optStrToJs : Option String → JsVal
  | some s => .str s
  | none => .jsundefined

/-- An upstream HTTP response: `ok` is `response.ok` (success status),
`status` the HTTP status code, `body` the value produced by
`response.json()`. -/
structure UpstreamResp where
  ok : Bool
  status : ℕ
  body : JsVal

/-- An upstream HTTP call as the handlers build it: host, path, query
parameters in append order, and the API-key header value (`none` when
the environment variable is absent, i.e. the header value is
`undefined`). -/
structure UpstreamCall where
  host : String
  path : String
  params : List (String × String)
  key : Option String

/-- The observable outcome of one handler invocation: HTTP status,
JSON body, and the upstream calls attempted, in order. -/
structure HandlerResult where
  status : ℕ
  body : JsVal
  calls : List UpstreamCall

/-- A normalized itinerary, as produced by `formatItineraryResponse`:
the record literal of the source, with `price` the result of
`parseFloat`. -/
structure Itin where
  fromCode : JsVal
  toCode : JsVal
  outDeparture : JsVal
  outArrival : JsVal
  returnDeparture : JsVal
  returnArrival : JsVal
  stopsOutbound : JsVal
  stopsInbound : JsVal
  airline : JsVal
  price : ℚ

/-- The JSON object a normalized itinerary is serialized to. -/
def Itin.toJs (i : Itin) : JsVal :=
  .obj [("from", i.fromCode), ("to", i.toCode),
    ("outDeparture", i.outDeparture), ("outArrival", i.outArrival),
    ("returnDeparture", i.returnDeparture), ("returnArrival", i.returnArrival),
    ("stopsOutbound", i.stopsOutbound), ("stopsInbound", i.stopsInbound),
    ("airline", i.airline), ("price", .num i.price)]

/-- The body of the `map` callback of `formatItineraryResponse`
(`server.js` round-trip variant), for a non-nullish `itin`:

`outSeg = itin.outbound?.sectorSegments?.[0]`,
`inSeg = itin.inbound?.sectorSegments?.[0]`, then the record with
`stops...length ?? 0`, `carrierName ?? "Unknown"` and
`parseFloat(itin.price?.amount || "0")`. -/
def normalizeItinCore (dep arr : JsVal) (itin : JsVal) : Itin :=
  let outSeg := ((itin.get "outbound").optChain "sectorSegments").optChain "0"
  let inSeg := ((itin.get "inbound").optChain "sectorSegments").optChain "0"
  { fromCode := dep
    toCode := arr
    outDeparture := outSeg.optChain "departure"
    outArrival := outSeg.optChain "arrival"
    returnDeparture := inSeg.optChain "departure"
    returnArrival := inSeg.optChain "arrival"
    stopsOutbound := jsCoalesce ((outSeg.optChain "stops").optChain "length") (.num 0)
    stopsInbound := jsCoalesce ((inSeg.optChain "stops").optChain "length") (.num 0)
    airline := jsCoalesce (outSeg.optChain "carrierName") (.str "Unknown")
    price := jsParseFloat (jsOr ((itin.get "price").optChain "amount") (.str "0")) }

/-- One step of the `map` callback: `itin.outbound` is a plain (not
optional) property access, so a nullish array element throws a
`TypeError`; every other access in the callback is optional-chained or
guarded.  The thrown case is `Except.error`. -/
def normalizeItin (dep arr : JsVal) (itin : JsVal) : Except Unit Itin :=
  if itin.isNullish then .error () else .ok (normalizeItinCore dep arr itin)

/-- `Array.prototype.map` over the itineraries with exception
propagation. -/
def normList (dep arr : JsVal) : List JsVal → Except Unit (List Itin)
  | [] => .ok []
  | x :: xs =>
    match normalizeItin dep arr x with
    | .error e => .error e
    | .ok i =>
      match normList dep arr xs with
      | .error e => .error e
      | .ok is => .ok (i :: is)

/-- `formatItineraryResponse(data, dep, arr)` of the round-trip variant
inside `server.js`: returns `[]` unless `data?.data?.itineraries` is
truthy, then maps the callback over it.  A truthy non-array value has
no `.map` method, and a nullish array element throws inside the
callback; both are `Except.error` (caught by the route's `catch`). -/
def formatItineraryResponse (data : JsVal) (dep arr : JsVal) : Except Unit (List Itin) :=
  let itins := (data.optChain "data").optChain "itineraries"
  if ¬ itins.truthy then .ok []
  else
    match itins with
    | .arr xs => normList dep arr xs
    | _ => .error ()

/-- The `map` callback of the standalone round-trip variant
(`part_001`), which differs from the `server.js` one only by `?? null`
on the four timestamp fields. -/
def normalizeItinCoreK (dep arr : JsVal) (itin : JsVal) : Itin :=
  let outSeg := ((itin.get "outbound").optChain "sectorSegments").optChain "0"
  let inSeg := ((itin.get "inbound").optChain "sectorSegments").optChain "0"
  { fromCode := dep
    toCode := arr
    outDeparture := jsCoalesce (outSeg.optChain "departure") .jsnull
    outArrival := jsCoalesce (outSeg.optChain "arrival") .jsnull
    returnDeparture := jsCoalesce (inSeg.optChain "departure") .jsnull
    returnArrival := jsCoalesce (inSeg.optChain "arrival") .jsnull
    stopsOutbound := jsCoalesce ((outSeg.optChain "stops").optChain "length") (.num 0)
    stopsInbound := jsCoalesce ((inSeg.optChain "stops").optChain "length") (.num 0)
    airline := jsCoalesce (outSeg.optChain "carrierName") (.str "Unknown")
    price := jsParseFloat (jsOr ((itin.get "price").optChain "amount") (.num 0)) }

/-- One `map` step of the `part_001` formatter (same throw behaviour
as `normalizeItin`). -/
def normalizeItinK (dep arr : JsVal) (itin : JsVal) : Except Unit Itin :=
  if itin.isNullish then .error () else .ok (normalizeItinCoreK dep arr itin)

/-- `Array.prototype.map` for the `part_001` formatter. -/
def normListK (dep arr : JsVal) : List JsVal → Except Unit (List Itin)
  | [] => .ok []
  | x :: xs =>
    match normalizeItinK dep arr x with
    | .error e => .error e
    | .ok i =>
      match normListK dep arr xs with
      | .error e => .error e
      | .ok is => .ok (i :: is)

/-- `formatItineraryResponse(data, dep, arr)` of `part_001`. -/
def formatItineraryResponseK (data : JsVal) (dep arr : JsVal) : Except Unit (List Itin) :=
  let itins := (data.optChain "data").optChain "itineraries"
  if ¬ itins.truthy then .ok []
  else
    match itins with
    | .arr xs => normListK dep arr xs
    | _ => .error ()

/-- The comparison relation of `allResults.sort((a, b) => a.price - b.price)`. -/
def priceLE (a b : Itin) : Prop := a.price ≤ b.price

instance : DecidableRel priceLE := fun a b => inferInstanceAs (Decidable (a.price ≤ b.price))

instance : IsTotal Itin priceLE := ⟨fun a b => le_total a.price b.price⟩

instance : IsTrans Itin priceLE := ⟨fun _ _ _ h h' => le_trans h h'⟩

/-- `allResults.sort((a, b) => a.price - b.price)`: a stable sort by
price (the ECMAScript sort is stable and the comparator is consistent
on the rational prices of this model), embedded as insertion sort. -/
def sortByPrice (l : List Itin) : List Itin := l.insertionSort priceLE

theorem sortByPrice_sorted (l : List Itin) :
    (sortByPrice l).Pairwise (fun a b => a.price ≤ b.price) :=
  List.sorted_insertionSort priceLE l

/-! ## Sky-Scrapper variant (`server.js`, first document) -/

/-- Query-string parameters of `GET /api/search-flights` in the
Sky-Scrapper variant (missing parameters are `undefined`; destructuring
defaults apply to the optional ones). -/
structure SkyQuery where
  fromQ : Option String
  toQ : Option String
  date : Option String
  returnDate : Option String
  adults : Option String
  cabinClass : Option String
  currency : Option String
  market : Option String
  countryCode : Option String

/-- The upstream URL the Sky-Scrapper handler builds, parameters in
template order with `returnDate` interpolated only when truthy. -/
def skyCall (q : SkyQuery) (key : String) : UpstreamCall :=
  { host := "sky-scrapper.p.rapidapi.com"
    path := "/api/v2/flights/searchFlights"
    params :=
      [("originSkyId", jstr q.fromQ), ("destinationSkyId", jstr q.toQ),
        ("originEntityId", jstr q.fromQ), ("destinationEntityId", jstr q.toQ),
        ("date", jstr q.date)]
      ++ (if strTruthy q.returnDate then [("returnDate", jstr q.returnDate)] else [])
      ++ [("cabinClass", q.cabinClass.getD "economy"), ("adults", q.adults.getD "1"),
        ("sortBy", "best"), ("currency", q.currency.getD "GBP"),
        ("market", q.market.getD "en-GB"), ("countryCode", q.countryCode.getD "UK")]
    key := some key }

/-- The missing-parameter response body of the search handlers that
validate, listing the required field names. -/
def missingParamsBody (required : List String) : JsVal :=
  .obj [("error", .str "Missing required parameters"),
    ("required", .arr (required.map .str))]

/-- `GET /api/search-flights` of the Sky-Scrapper variant: validate
`from`/`to`/`date`, require `RAPIDAPI_KEY`, call upstream, pass the
status and raw payload through on failure. -/
def skySearchFlights (q : SkyQuery) (env : Option String)
    (up : UpstreamCall → UpstreamResp) : HandlerResult :=
  if !strTruthy q.fromQ || !strTruthy q.toQ || !strTruthy q.date then
    { status := 400, body := missingParamsBody ["from", "to", "date"], calls := [] }
  else if ¬ strTruthy env then
    { status := 500,
      body := .obj [("error", .str "API key not configured"),
        ("message", .str "Please set RAPIDAPI_KEY environment variable in Render")]
      calls := [] }
  else
    let call := skyCall q (env.getD "")
    let resp := up call
    if !resp.ok then
      { status := resp.status
        body := .obj [("error", .str "API request failed"), ("details", resp.body),
          ("status", .num resp.status)]
        calls := [call] }
    else
      { status := 200
        body := .obj [("success", .bool true), ("data", resp.body)]
        calls := [call] }

/-- The upstream URL of `GET /api/search-location` (Sky-Scrapper
variant). -/
def skyLocCall (query : Option String) (key : String) : UpstreamCall :=
  { host := "sky-scrapper.p.rapidapi.com"
    path := "/api/v1/flights/searchAirport"
    params := [("query", jstr query)]
    key := some key }

/-- `GET /api/search-location` of the Sky-Scrapper variant. -/
def skySearchLocation (query : Option String) (env : Option String)
    (up : UpstreamCall → UpstreamResp) : HandlerResult :=
  if !strTruthy query then
    { status := 400, body := .obj [("error", .str "Missing query parameter")], calls := [] }
  else if ¬ strTruthy env then
    { status := 500, body := .obj [("error", .str "API key not configured")], calls := [] }
  else
    let call := skyLocCall query (env.getD "")
    let resp := up call
    if !resp.ok then
      { status := resp.status
        body := .obj [("error", .str "API request failed"), ("details", resp.body)]
        calls := [call] }
    else
      { status := 200
        body := .obj [("success", .bool true), ("data", resp.body)]
        calls := [call] }

/-! ## Round-trip variant (`part_001` first document; the same two
routes also appear as the second document inside `server.js`) -/

/-- JSON body of `POST /api/search` (fields absent from the body are
`undefined`; source names `from`/`to` are `fromQ`/`toQ` here since
`from` is a Lean keyword).  Numeric body fields (`adults`) are
represented by the decimal string `URLSearchParams.append` renders
them to, since that is their only use. -/
structure SearchBody where
  fromQ : Option String
  toQ : Option String
  departureDate : Option String
  returnDate : Option String
  adultsS : Option String
  currencyS : Option String

/-- The round-trip upstream URL: `fromId`/`toId` get a `-sky` suffix
and `returnDate` is always appended (stringifying `undefined` when
absent).  The key header holds `RAPIDAPI_KEY` verbatim, with no
missing-key check. -/
def rtCall (env : Option String) (fromQ toQ departureDate returnDate adultsS currencyS :
    Option String) : UpstreamCall :=
  { host := "flights-scraper-real-time.p.rapidapi.com"
    path := "/v2/flight/round-trip"
    params := [("fromId", jstr fromQ ++ "-sky"), ("toId", jstr toQ ++ "-sky"),
      ("date", jstr departureDate), ("returnDate", jstr returnDate),
      ("selectedCabins", "ECONOMY"), ("adult", adultsS.getD "1"),
      ("currency", currencyS.getD "GBP")]
    key := env }

/-- `POST /api/search`: no validation and no `response.ok` check — the
upstream JSON (whatever its status) is fed to the formatter and
returned as a 200 `{results}` response; only a thrown formatter error
reaches the `catch` (500 `{error: "Server error"}`). -/
def apiSearch (b : SearchBody) (env : Option String)
    (up : UpstreamCall → UpstreamResp) : HandlerResult :=
  let call := rtCall env b.fromQ b.toQ b.departureDate b.returnDate b.adultsS b.currencyS
  let resp := up call
  match formatItineraryResponse resp.body (optStrToJs b.fromQ) (optStrToJs b.toQ) with
  | .ok results =>
    { status := 200
      body := .obj [("results", .arr (results.map Itin.toJs))]
      calls := [call] }
  | .error _ =>
    { status := 500, body := .obj [("error", .str "Server error")], calls := [call] }

/-- JSON body of `POST /api/search-flex`.  `departures`/`arrivals` are
the candidate code arrays (`none` models an absent field; `some []` is
a present empty array, which JavaScript treats as truthy). -/
structure FlexBody where
  departures : Option (List String)
  arrivals : Option (List String)
  departureDate : Option String
  returnDate : Option String
  adultsS : Option String
  currencyS : Option String

/-- The Cartesian product the nested `for` loops of `/api/search-flex`
traverse, in traversal order. -/
def flexPairs (deps arrs : List String) : List (String × String) :=
  deps.bind fun d => arrs.map fun a => (d, a)

/-- The loop body of `/api/search-flex` over the remaining pairs: one
upstream call per pair, formatting each response and concatenating;
a thrown formatter error aborts the loop (it propagates to the route's
`catch`).  Returns the collected itineraries (or the thrown error)
together with the upstream calls attempted. -/
def flexLoop (env : Option String) (up : UpstreamCall → UpstreamResp)
    (departureDate returnDate adultsS currencyS : Option String) :
    List (String × String) → Except Unit (List Itin) × List UpstreamCall
  | [] => (.ok [], [])
  | (d, a) :: rest =>
    let call := rtCall env (some d) (some a) departureDate returnDate adultsS currencyS
    let resp := up call
    match formatItineraryResponseK resp.body (.str d) (.str a) with
    | .error e => (.error e, [call])
    | .ok itins =>
      match flexLoop env up departureDate returnDate adultsS currencyS rest with
      | (.error e, calls) => (.error e, call :: calls)
      | (.ok more, calls) => (.ok (itins ++ more), call :: calls)

/-- `POST /api/search-flex` (`part_001`): rejects an absent
`departures`/`arrivals` with 400 `{error: "Missing airports"}`, then
performs one upstream call per `(departure, arrival)` pair of the
Cartesian product, aggregates the formatted itineraries, and returns
them as a 200 `{results}` response sorted ascending by price (an empty
aggregate returns `{results: []}` directly).  A thrown formatter error
reaches the `catch` (500 `{error: "Server Error"}`). -/
def apiSearchFlex (b : FlexBody) (env : Option String)
    (up : UpstreamCall → UpstreamResp) : HandlerResult :=
  match b.departures, b.arrivals with
  | some deps, some arrs =>
    match flexLoop env up b.departureDate b.returnDate b.adultsS b.currencyS
        (flexPairs deps arrs) with
    | (.error _, calls) =>
      { status := 500, body := .obj [("error", .str "Server Error")], calls := calls }
    | (.ok allResults, calls) =>
      if allResults.length = 0 then
        { status := 200, body := .obj [("results", .arr [])], calls := calls }
      else
        { status := 200
          body := .obj [("results", .arr ((sortByPrice allResults).map Itin.toJs))]
          calls := calls }
  | _, _ =>
    { status := 400, body := .obj [("error", .str "Missing airports")], calls := [] }

/-! ## Request-counter variant (`part_000`) -/

/-- The initial value of the module-level `requestCount` (`let
requestCount = 0`). -/
def p0InitialCount : ℕ := 0

/-- Query-string parameters of `GET /api/search-flights` in the
request-counter variant. -/
structure P0Query where
  fromQ : Option String
  toQ : Option String
  departureDate : Option String
  returnDate : Option String
  tripType : Option String
  adults : Option String
  children : Option String
  infants : Option String
  stopsQ : Option String
  cabinClass : Option String
  currency : Option String
  market : Option String
  locale : Option String
  sortKey : Option String

/-- The upstream URL of the request-counter search handler: the
endpoint is chosen by `tripType` (destructuring default `'return'`),
the `URLSearchParams` literal in source order, and `returnDate`
appended only when `tripType === 'return'` and a return date is
truthy. -/
def p0SearchCall (q : P0Query) (key : String) : UpstreamCall :=
  { host := "flights-scraper-real-time.p.rapidapi.com"
    path :=
      if q.tripType.getD "return" = "oneway" then "/flights/search-oneway"
      else "/flights/search-return"
    params :=
      [("originSkyId", jstr q.fromQ), ("destinationSkyId", jstr q.toQ),
        ("departureDate", jstr q.departureDate), ("adults", q.adults.getD "1"),
        ("children", q.children.getD "0"), ("infants", q.infants.getD "0"),
        ("stops", q.stopsQ.getD "2"), ("cabinClass", q.cabinClass.getD "ECONOMY"),
        ("currency", q.currency.getD "GBP"), ("market", q.market.getD "GB"),
        ("locale", q.locale.getD "en-GB"), ("sort", q.sortKey.getD "PRICE"),
        ("limit", "20"), ("allowReturnFromDifferentStationOrAirport", "true"),
        ("allowReturnToDifferentStationOrAirport", "true")]
      ++ (if q.tripType.getD "return" = "return" && strTruthy q.returnDate then
            [("returnDate", jstr q.returnDate)]
          else [])
    key := some key }

/-- `GET /api/search-flights` of the request-counter variant, with the
module-level counter threaded as state: validate `from`/`to`/
`departureDate`, require the key, increment the counter (`++requestCount`
in the log line, before the fetch), call upstream; on failure pass the
status and payload through; on success the `data.data?.itineraries`
result-count read throws on a nullish payload (reaching the `catch`),
otherwise return `{success, data, meta}` with the post-increment
counter. -/
def p0SearchFlights (q : P0Query) (env : Option String)
    (up : UpstreamCall → UpstreamResp) (count : ℕ) : ℕ × HandlerResult :=
  if !strTruthy q.fromQ || !strTruthy q.toQ || !strTruthy q.departureDate then
    (count,
      { status := 400, body := missingParamsBody ["from", "to", "departureDate"],
        calls := [] })
  else if ¬ strTruthy env then
    (count,
      { status := 500, body := .obj [("error", .str "API key not configured")],
        calls := [] })
  else
    let count' := count + 1
    let call := p0SearchCall q (env.getD "")
    let resp := up call
    if !resp.ok then
      (count',
        { status := resp.status
          body := .obj [("error", .str "API request failed"), ("details", resp.body),
            ("status", .num resp.status)]
          calls := [call] })
    else if resp.body.isNullish then
      (count',
        { status := 500
          body := .obj [("error", .str "Internal server error"),
            ("message", .str "TypeError")]
          calls := [call] })
    else
      (count',
        { status := 200
          body := .obj [("success", .bool true), ("data", resp.body),
            ("meta", .obj [("requestCount", .num count'),
              ("requestLimit", .num 150),
              ("requestsRemaining", .num (150 - (count' : ℚ)))])]
          calls := [call] })

/-- The upstream URL of `GET /api/autocomplete` (request-counter
variant). -/
def p0AcCall (query : Option String) (key : String) : UpstreamCall :=
  { host := "flights-scraper-real-time.p.rapidapi.com"
    path := "/flights/auto-complete"
    params := [("query", jstr query)]
    key := some key }

/-- `GET /api/autocomplete` of the request-counter variant, with the
counter threaded as state (incremented before the fetch). -/
def p0Autocomplete (query : Option String) (env : Option String)
    (up : UpstreamCall → UpstreamResp) (count : ℕ) : ℕ × HandlerResult :=
  if !strTruthy query then
    (count,
      { status := 400, body := .obj [("error", .str "Missing query parameter")],
        calls := [] })
  else if ¬ strTruthy env then
    (count,
      { status := 500
        body := .obj [("error", .str "API key not configured"),
          ("message", .str "Please set RAPIDAPI_KEY environment variable in Render")]
        calls := [] })
  else
    let count' := count + 1
    let call := p0AcCall query (env.getD "")
    let resp := up call
    if !resp.ok then
      (count',
        { status := resp.status
          body := .obj [("error", .str "API request failed"), ("details", resp.body)]
          calls := [call] })
    else
      (count',
        { status := 200, body := .obj [("success", .bool true), ("data", resp.body)]
          calls := [call] })

/-- `GET /api/request-count`: reports the counter, the fixed limit 150
and `150 - requestCount` (a JavaScript number, so negative once the
counter passes the ceiling). -/
def p0RequestCount (count : ℕ) : HandlerResult :=
  { status := 200
    body := .obj [("count", .num count), ("limit", .num 150),
      ("remaining", .num (150 - (count : ℚ)))]
    calls := [] }

/-- One incoming request to the request-counter variant. -/
inductive P0Event where
  | autocomplete (query : Option String)
  | search (q : P0Query)
  | requestCountQuery

/-- Dispatch of one incoming request, threading the module-level
counter. -/
def p0Step (env : Option String) (up : UpstreamCall → UpstreamResp)
    (count : ℕ) : P0Event → ℕ × HandlerResult
  | .autocomplete query => p0Autocomplete query env up count
  | .search q => p0SearchFlights q env up count
  | .requestCountQuery => (count, p0RequestCount count)

/-- A run of the process over a sequence of incoming requests,
returning the final counter and the handler results. -/
def p0Run (env : Option String) (up : UpstreamCall → UpstreamResp)
    (count : ℕ) : List P0Event → ℕ × List HandlerResult
  | [] => (count, [])
  | e :: es =>
    let (c', r) := p0Step env up count e
    let (c'', rs) := p0Run env up c' es
    (c'', r :: rs)

/-! ## Kiwi.com variant (`part_001` second document) -/

/-- Leap-year test of the Gregorian calendar. -/
def isLeapYear (y : ℕ) : Bool := (y % 4 = 0 && y % 100 != 0) || y % 400 = 0

/-- Days in a month of the Gregorian calendar. -/
def daysInMonth (y m : ℕ) : ℕ :=
  if m = 2 then (if isLeapYear y then 29 else 28)
  else if m = 4 || m = 6 || m = 9 || m = 11 then 30
  else 31

/-- The civil day before `(y, m, d)`. -/
def prevCivilDay (y m d : ℕ) : ℕ × ℕ × ℕ :=
  if 1 < d then (y, m, d - 1)
  else if 1 < m then (y, m - 1, daysInMonth y (m - 1))
  else (y - 1, 12, 31)

/-- The civil date the local-time getters of a JavaScript `Date` see,
for a `Date` parsed from an ISO `YYYY-MM-DD` string.  `new Date("YYYY-
MM-DD")` denotes midnight UTC of that civil date; `getDate`,
`getMonth`, `getFullYear` report it shifted by the runtime's local
offset `tz` (minutes east of UTC, `-1440 < tz < 1440`): a non-negative
offset lands `tz` minutes into the same civil day, a negative offset
lands in the preceding civil day. -/
def localCivil (tz : ℤ) (y m d : ℕ) : ℕ × ℕ × ℕ :=
  if 0 ≤ tz then (y, m, d) else prevCivilDay y m d

/-- `String(n).padStart(2, '0')`. -/
def pad2 (n : ℕ) : String := if n < 10 then "0" ++ toString n else toString n

/-- Split a character list on a separator character. -/
def splitOnChar (sep : Char) : List Char → List (List Char)
  | [] => [[]]
  | c :: cs =>
    match splitOnChar sep cs with
    | [] => if c = sep then [[], [c]] else [[c]]
    | g :: gs => if c = sep then [] :: g :: gs else (c :: g) :: gs

/-- A non-empty all-digit character group as a number. -/
def charsToNat? (cs : List Char) : Option ℕ :=
  if cs ≠ [] ∧ cs.all (·.isDigit) then some (digitsVal cs) else none

/-- Parse an ISO `YYYY-MM-DD` string into its components. -/
def parseIso (s : String) : Option (ℕ × ℕ × ℕ) :=
  match (splitOnChar '-' s.data).map charsToNat? with
  | [some y, some m, some d] => some (y, m, d)
  | _ => none

/-- The `formatDate` closure of the Kiwi variant: `new Date(dateStr)`
followed by `getDate`/`getMonth + 1`/`getFullYear` rendered as
`DD/MM/YYYY`, in a runtime with local offset `tz` minutes east of UTC.
A string `new Date` cannot parse yields an invalid date whose getters
are `NaN` (rendered `"NaN/NaN/NaN"`); that branch models only ISO
`YYYY-MM-DD` inputs being out of reach. -/
def formatDate (tz : ℤ) (dateStr : String) : String :=
  match parseIso dateStr with
  | some (y, m, d) =>
    let (ly, lm, ld) := localCivil tz y m d
    pad2 ld ++ "/" ++ pad2 lm ++ "/" ++ toString ly
  | none => "NaN/NaN/NaN"

/-- Query-string parameters of `GET /api/search-flights` in the Kiwi
variant. -/
structure KiwiQuery where
  fromQ : Option String
  toQ : Option String
  date : Option String
  returnDate : Option String
  adults : Option String
  currency : Option String

/-- `process.env.KIWI_API_KEY || 'picky'`: the effective key, falling
back to the `picky` test key when the variable is absent or empty. -/
def kiwiKey (env : Option String) : String :=
  match env with
  | some s => if s = "" then "picky" else s
  | none => "picky"

/-- The upstream Kiwi URL: `URLSearchParams` literal in source order
(dates converted by `formatDate`), `return_from`/`return_to` appended
only when a return date is truthy; the `apikey` header carries the
effective key. -/
def kiwiCall (q : KiwiQuery) (tz : ℤ) (key : String) : UpstreamCall :=
  { host := "api.tequila.kiwi.com"
    path := "/v2/search"
    params :=
      [("fly_from", jstr q.fromQ), ("fly_to", jstr q.toQ),
        ("date_from", formatDate tz (jstr q.date)),
        ("date_to", formatDate tz (jstr q.date)),
        ("adults", q.adults.getD "1"), ("curr", q.currency.getD "GBP"),
        ("limit", "20"), ("sort", "price")]
      ++ (if strTruthy q.returnDate then
            [("return_from", formatDate tz (jstr q.returnDate)),
              ("return_to", formatDate tz (jstr q.returnDate))]
          else [])
    key := some key }

/-- `GET /api/search-flights` of the Kiwi variant: validate
`from`/`to`/`date`, then always call upstream with the effective key
(missing `KIWI_API_KEY` falls back to `'picky'`, with no
configuration-error response).  On a non-success status the response
carries the upstream status and payload, plus a `message` that for a
non-401 status reads `data.message` — a plain access that throws on a
nullish payload (reaching the `catch`).  On success the
`data.data?.length` result count likewise throws on a nullish
payload. -/
def kiwiSearchFlights (q : KiwiQuery) (env : Option String) (tz : ℤ)
    (up : UpstreamCall → UpstreamResp) : HandlerResult :=
  if !strTruthy q.fromQ || !strTruthy q.toQ || !strTruthy q.date then
    { status := 400, body := missingParamsBody ["from", "to", "date"], calls := [] }
  else
    let call := kiwiCall q tz (kiwiKey env)
    let resp := up call
    if !resp.ok then
      if resp.status = 401 then
        { status := resp.status
          body := .obj [("error", .str "API request failed"), ("details", resp.body),
            ("status", .num resp.status),
            ("message", .str "API key invalid or expired")]
          calls := [call] }
      else if resp.body.isNullish then
        { status := 500
          body := .obj [("error", .str "Internal server error"),
            ("message", .str "TypeError")]
          calls := [call] }
      else
        { status := resp.status
          body := .obj [("error", .str "API request failed"), ("details", resp.body),
            ("status", .num resp.status),
            ("message", jsOr (resp.body.get "message") (.str "Unknown error"))]
          calls := [call] }
    else if resp.body.isNullish then
      { status := 500
        body := .obj [("error", .str "Internal server error"),
          ("message", .str "TypeError")]
        calls := [call] }
    else
      { status := 200
        body := .obj [("success", .bool true), ("data", resp.body),
          ("resultCount", jsOr ((resp.body.get "data").optChain "length") (.num 0))]
        calls := [call] }

/-! ## Helper lemmas -/

theorem optChain_undef (k : String) : JsVal.optChain .jsundefined k = .jsundefined := rfl

/-- `map` with exception propagation succeeds on a list of non-nullish
elements and is elementwise `normalizeItinCore`. -/
theorem normList_ok (dep arr : JsVal) :
    ∀ xs : List JsVal, (∀ x ∈ xs, x.isNullish = false) →
      normList dep arr xs = .ok (xs.map (normalizeItinCore dep arr))
  | [], _ => rfl
  | x :: xs, h => by
    have hx : x.isNullish = false := h x (List.mem_cons_self x xs)
    have ih := normList_ok dep arr xs (fun y hy => h y (List.mem_cons_of_mem x hy))
    simp [normList, normalizeItin, hx, ih]

/-- The `part_001` analogue of `normList_ok`. -/
theorem normListK_ok (dep arr : JsVal) :
    ∀ xs : List JsVal, (∀ x ∈ xs, x.isNullish = false) →
      normListK dep arr xs = .ok (xs.map (normalizeItinCoreK dep arr))
  | [], _ => rfl
  | x :: xs, h => by
    have hx : x.isNullish = false := h x (List.mem_cons_self x xs)
    have ih := normListK_ok dep arr xs (fun y hy => h y (List.mem_cons_of_mem x hy))
    simp [normListK, normalizeItinK, hx, ih]

/-! ## Claim C6 -/

/-- C6: the Kiwi `formatDate` does not map every ISO date to its own
`DD/MM/YYYY` rendering: `new Date("2025-03-05")` denotes midnight UTC,
and the local-time getters shift it into the runtime's timezone, so a
runtime west of UTC (here UTC−05:00, `tz = -300`) renders the
preceding civil day, `"04/03/2025"`; only at UTC (and east of it) does
`"2025-03-05"` render as the claimed `"05/03/2025"`. -/
theorem c6_formatDate_previous_day_west_of_utc :
    formatDate (-300) "2025-03-05" = "04/03/2025" ∧
    formatDate 0 "2025-03-05" = "05/03/2025" := by
  constructor <;> decide

/-! ## Claim C5 -/

/-- C5: itinerary normalization tolerates absent nested fields: on any
itinerary object (non-nullish value) it never throws; a missing
`price` field yields price `0`; a missing `outbound` segment (hence no
outbound carrier) yields airline `"Unknown"` and outbound stop count
`0`.  Both formatter versions (`server.js` and `part_001`) are
covered. -/
theorem c5_normalization_defaults (dep arr itin : JsVal) :
    (itin.isNullish = false →
      normalizeItin dep arr itin = .ok (normalizeItinCore dep arr itin) ∧
      normalizeItinK dep arr itin = .ok (normalizeItinCoreK dep arr itin)) ∧
    (itin.get "price" = .jsundefined →
      (normalizeItinCore dep arr itin).price = 0 ∧
      (normalizeItinCoreK dep arr itin).price = 0) ∧
    (itin.get "outbound" = .jsundefined →
      (normalizeItinCore dep arr itin).airline = .str "Unknown" ∧
      (normalizeItinCore dep arr itin).stopsOutbound = .num 0 ∧
      (normalizeItinCoreK dep arr itin).airline = .str "Unknown" ∧
      (normalizeItinCoreK dep arr itin).stopsOutbound = .num 0) := by
  refine ⟨fun h => ⟨?_, ?_⟩, fun h => ⟨?_, ?_⟩, fun h => ⟨?_, ?_, ?_, ?_⟩⟩
  · simp [normalizeItin, h]
  · simp [normalizeItinK, h]
  · simp [normalizeItinCore, h, JsVal.optChain, JsVal.isNullish, jsOr, JsVal.truthy,
      jsParseFloat, parseDecimal, digitsVal]
  · simp [normalizeItinCoreK, h, JsVal.optChain, JsVal.isNullish, jsOr, JsVal.truthy,
      jsParseFloat]
  · simp [normalizeItinCore, h, JsVal.optChain, JsVal.isNullish, jsCoalesce]
  · simp [normalizeItinCore, h, JsVal.optChain, JsVal.isNullish, jsCoalesce]
  · simp [normalizeItinCoreK, h, JsVal.optChain, JsVal.isNullish, jsCoalesce]
  · simp [normalizeItinCoreK, h, JsVal.optChain, JsVal.isNullish, jsCoalesce]

/-- C5 witness: the empty itinerary object. -/
theorem c5_witness :
    (JsVal.obj []).isNullish = false ∧
    (JsVal.obj []).get "price" = .jsundefined ∧
    (JsVal.obj []).get "outbound" = .jsundefined ∧
    (normalizeItinCore (.str "LHR") (.str "JFK") (.obj [])).price = 0 ∧
    (normalizeItinCore (.str "LHR") (.str "JFK") (.obj [])).airline = .str "Unknown" ∧
    (normalizeItinCore (.str "LHR") (.str "JFK") (.obj [])).stopsOutbound = .num 0 ∧
    normalizeItin (.str "LHR") (.str "JFK") (.obj []) =
      .ok (normalizeItinCore (.str "LHR") (.str "JFK") (.obj [])) :=
  ⟨rfl, rfl, rfl,
    ((c5_normalization_defaults (.str "LHR") (.str "JFK") (.obj [])).2.1 rfl).1,
    ((c5_normalization_defaults (.str "LHR") (.str "JFK") (.obj [])).2.2 rfl).1,
    ((c5_normalization_defaults (.str "LHR") (.str "JFK") (.obj [])).2.2 rfl).2.1,
    ((c5_normalization_defaults (.str "LHR") (.str "JFK") (.obj [])).1 rfl).1⟩

/-! ## Claim C10 -/

/-- C10 counterexample: a payload whose `itineraries` array contains a
`null` element makes the formatter throw (the `map` callback reads
`itin.outbound` on `null`), so it does not return a same-length list
for *every* payload with an itineraries array. -/
theorem c10_counterexample :
    formatItineraryResponse (.obj [("data", .obj [("itineraries", .arr [.jsnull])])])
      (.str "LHR") (.str "JFK") = .error () := rfl

/-- C10 (amended): both formatter versions return `[]` for every
payload lacking a `data.data.itineraries` field (nullish or non-object
payloads included), and for every payload whose `itineraries` field is
an array of non-nullish elements they return one normalized itinerary
per upstream itinerary, in order, hence a list of the same length;  an
array containing a nullish element instead throws (see the
counterexample). -/
theorem c10_formatter_totality (data dep arr : JsVal) :
    ((data.optChain "data").optChain "itineraries" = .jsundefined →
      formatItineraryResponse data dep arr = .ok [] ∧
      formatItineraryResponseK data dep arr = .ok []) ∧
    (∀ xs : List JsVal, (data.optChain "data").optChain "itineraries" = .arr xs →
      (∀ x ∈ xs, x.isNullish = false) →
      formatItineraryResponse data dep arr = .ok (xs.map (normalizeItinCore dep arr)) ∧
      (xs.map (normalizeItinCore dep arr)).length = xs.length ∧
      formatItineraryResponseK data dep arr = .ok (xs.map (normalizeItinCoreK dep arr)) ∧
      (xs.map (normalizeItinCoreK dep arr)).length = xs.length) := by
  constructor
  · intro h
    constructor
    · simp [formatItineraryResponse, h, JsVal.truthy]
    · simp [formatItineraryResponseK, h, JsVal.truthy]
  · intro xs h hx
    refine ⟨?_, List.length_map xs _, ?_, List.length_map xs _⟩
    · simp [formatItineraryResponse, h, JsVal.truthy, normList_ok dep arr xs hx]
    · simp [formatItineraryResponseK, h, JsVal.truthy, normListK_ok dep arr xs hx]

/-- C10 witness: an absent-`data` payload and a one-element itineraries
array. -/
theorem c10_witness :
    ((JsVal.jsnull.optChain "data").optChain "itineraries" = .jsundefined ∧
      formatItineraryResponse .jsnull (.str "A") (.str "B") = .ok []) ∧
    (((JsVal.obj [("data", .obj [("itineraries", .arr [.obj []])])]).optChain "data").optChain
        "itineraries" = .arr [.obj []] ∧
      formatItineraryResponse (.obj [("data", .obj [("itineraries", .arr [.obj []])])])
        (.str "A") (.str "B") =
        .ok ([JsVal.obj []].map (normalizeItinCore (.str "A") (.str "B"))) ∧
      ([JsVal.obj []].map (normalizeItinCore (.str "A") (.str "B"))).length = 1) :=
  have h := (c10_formatter_totality (.obj [("data", .obj [("itineraries", .arr [.obj []])])])
    (.str "A") (.str "B")).2 [.obj []] rfl (by simp [JsVal.isNullish])
  ⟨⟨rfl, ((c10_formatter_totality .jsnull (.str "A") (.str "B")).1 rfl).1⟩,
    ⟨rfl, h.1, h.2.1⟩⟩

/-! ## Claims C3 and C4: the flexible fan-out -/

/-- The itineraries one `(departure, arrival)` pair contributes to the
flexible search (the formatter's output, `[]` when it throws — under
the hypotheses used below the throwing case does not occur). -/
def pairItins (env : Option String) (up : UpstreamCall → UpstreamResp)
    (departureDate returnDate adultsS currencyS : Option String) (d a : String) : List Itin :=
  match formatItineraryResponseK
      (up (rtCall env (some d) (some a) departureDate returnDate adultsS currencyS)).body
      (.str d) (.str a) with
  | .ok is => is
  | .error _ => []

/-- When every remaining pair's response formats without throwing, the
flex loop succeeds, concatenates the per-pair itineraries in traversal
order and performs exactly one upstream call per pair. -/
theorem flexLoop_ok (env : Option String) (up : UpstreamCall → UpstreamResp)
    (dd rd ad cur : Option String) :
    ∀ ps : List (String × String),
      (∀ p ∈ ps, ∃ is, formatItineraryResponseK
          (up (rtCall env (some p.1) (some p.2) dd rd ad cur)).body
          (.str p.1) (.str p.2) = .ok is) →
      flexLoop env up dd rd ad cur ps =
        (.ok (ps.bind fun p => pairItins env up dd rd ad cur p.1 p.2),
          ps.map fun p => rtCall env (some p.1) (some p.2) dd rd ad cur)
  | [], _ => rfl
  | (d, a) :: rest, h => by
    obtain ⟨is, his⟩ := h (d, a) (List.mem_cons_self _ _)
    have ih := flexLoop_ok env up dd rd ad cur rest
      (fun p hp => h p (List.mem_cons_of_mem _ hp))
    have hpair : pairItins env up dd rd ad cur d a = is := by
      simp [pairItins, his]
    simp [flexLoop, his, ih, hpair]

/-- Length of the traversed Cartesian product. -/
theorem flexPairs_length (deps arrs : List String) :
    (flexPairs deps arrs).length = deps.length * arrs.length := by
  induction deps with
  | nil => simp [flexPairs]
  | cons d ds ih =>
    simp [flexPairs, Nat.succ_mul, Nat.add_comm] at ih ⊢
    simp [ih, Nat.add_comm]

/-- Membership in the traversed Cartesian product. -/
theorem mem_flexPairs (deps arrs : List String) (p : String × String) :
    p ∈ flexPairs deps arrs ↔ p.1 ∈ deps ∧ p.2 ∈ arrs := by
  cases p with
  | mk d a =>
    simp only [flexPairs, List.mem_bind, List.mem_map, Prod.mk.injEq]
    constructor
    · rintro ⟨x, hx, y, hy, he, ha⟩
      exact ⟨he ▸ hx, ha ▸ hy⟩
    · rintro ⟨hd, ha⟩
      exact ⟨d, hd, a, ha, rfl, rfl⟩

/-- C3: with present candidate arrays whose responses all format
without throwing, `/api/search-flex` performs exactly one upstream
call per `(departure, arrival)` pair of the Cartesian product —
`|departures| * |arrivals|` calls in total — and responds 200 with the
aggregated itinerary list sorted non-decreasing by price, whatever the
order of the candidates or the prices the oracle returns. -/
theorem c3_flex_cartesian_and_sorted (env : Option String)
    (up : UpstreamCall → UpstreamResp) (deps arrs : List String)
    (dd rd ad cur : Option String)
    (_hd : deps ≠ []) (_ha : arrs ≠ [])
    (hok : ∀ d a, d ∈ deps → a ∈ arrs → ∃ is, formatItineraryResponseK
      (up (rtCall env (some d) (some a) dd rd ad cur)).body (.str d) (.str a) = .ok is) :
    (apiSearchFlex ⟨some deps, some arrs, dd, rd, ad, cur⟩ env up).calls =
      ((flexPairs deps arrs).map fun p => rtCall env (some p.1) (some p.2) dd rd ad cur) ∧
    (apiSearchFlex ⟨some deps, some arrs, dd, rd, ad, cur⟩ env up).calls.length =
      deps.length * arrs.length ∧
    (apiSearchFlex ⟨some deps, some arrs, dd, rd, ad, cur⟩ env up).status = 200 ∧
    (apiSearchFlex ⟨some deps, some arrs, dd, rd, ad, cur⟩ env up).body =
      .obj [("results", .arr ((sortByPrice ((flexPairs deps arrs).bind fun p =>
        pairItins env up dd rd ad cur p.1 p.2)).map Itin.toJs))] ∧
    (sortByPrice ((flexPairs deps arrs).bind fun p =>
      pairItins env up dd rd ad cur p.1 p.2)).Pairwise (fun x y => x.price ≤ y.price) := by
  have hloop := flexLoop_ok env up dd rd ad cur (flexPairs deps arrs)
    (fun p hp => hok p.1 p.2 ((mem_flexPairs deps arrs p).1 hp).1
      ((mem_flexPairs deps arrs p).1 hp).2)
  have hmain : apiSearchFlex ⟨some deps, some arrs, dd, rd, ad, cur⟩ env up =
      { status := 200
        body := .obj [("results", .arr ((sortByPrice ((flexPairs deps arrs).bind fun p =>
          pairItins env up dd rd ad cur p.1 p.2)).map Itin.toJs))]
        calls := (flexPairs deps arrs).map fun p =>
          rtCall env (some p.1) (some p.2) dd rd ad cur } := by
    unfold apiSearchFlex
    dsimp only
    rw [hloop]
    dsimp only
    by_cases hz : ((flexPairs deps arrs).bind fun p =>
        pairItins env up dd rd ad cur p.1 p.2).length = 0
    · rw [List.length_eq_zero] at hz
      rw [hz]
      simp [sortByPrice, List.insertionSort]
    · rw [if_neg hz]
  rw [hmain]
  refine ⟨rfl, ?_, rfl, rfl, sortByPrice_sorted _⟩
  simp [flexPairs_length]

/-- C3 witness: one origin, one destination, an upstream always
returning an empty itineraries array. -/
theorem c3_witness :
    (["BRS"] : List String) ≠ [] ∧ (["FAO"] : List String) ≠ [] ∧
    (∀ d a, d ∈ (["BRS"] : List String) → a ∈ (["FAO"] : List String) →
      ∃ is, formatItineraryResponseK
        ((fun (_ : UpstreamCall) =>
          UpstreamResp.mk true 200 (.obj [("data", .obj [("itineraries", .arr [])])])) 
          (rtCall none (some d) (some a) none none none none)).body
        (.str d) (.str a) = .ok is) ∧
    (apiSearchFlex ⟨some ["BRS"], some ["FAO"], none, none, none, none⟩ none
      (fun _ => UpstreamResp.mk true 200 (.obj [("data", .obj [("itineraries", .arr [])])]))).calls.length =
      1 * 1 ∧
    (apiSearchFlex ⟨some ["BRS"], some ["FAO"], none, none, none, none⟩ none
      (fun _ => UpstreamResp.mk true 200 (.obj [("data", .obj [("itineraries", .arr [])])]))).status =
      200 := by
  have h := c3_flex_cartesian_and_sorted none
    (fun _ => UpstreamResp.mk true 200 (.obj [("data", .obj [("itineraries", .arr [])])]))
    ["BRS"] ["FAO"] none none none none (by decide) (by decide)
    (fun d a _ _ => ⟨[], rfl⟩)
  exact ⟨by decide, by decide, fun d a _ _ => ⟨[], rfl⟩, h.2.1, h.2.2.1⟩

/-- C4: if one pair of the fan-out fails upstream (non-success
response) while its error payload carries no itineraries, and the
other pair succeeds with itineraries `ys`, the whole operation still
responds 200 with exactly the successful pair's itineraries (sorted by
price), having attempted both upstream calls — the failing pair is
swallowed rather than aborting the fan-out. -/
theorem c4_pair_failure_swallowed (env : Option String)
    (up : UpstreamCall → UpstreamResp) (d a1 a2 : String)
    (dd rd ad cur : Option String) (ys : List Itin)
    (_hfail : (up (rtCall env (some d) (some a1) dd rd ad cur)).ok = false)
    (h1 : formatItineraryResponseK (up (rtCall env (some d) (some a1) dd rd ad cur)).body
      (.str d) (.str a1) = .ok [])
    (h2 : formatItineraryResponseK (up (rtCall env (some d) (some a2) dd rd ad cur)).body
      (.str d) (.str a2) = .ok ys) :
    (apiSearchFlex ⟨some [d], some [a1, a2], dd, rd, ad, cur⟩ env up).status = 200 ∧
    (apiSearchFlex ⟨some [d], some [a1, a2], dd, rd, ad, cur⟩ env up).calls.length = 2 ∧
    (apiSearchFlex ⟨some [d], some [a1, a2], dd, rd, ad, cur⟩ env up).body =
      .obj [("results", .arr ((sortByPrice ys).map Itin.toJs))] := by
  have hpairs : flexPairs [d] [a1, a2] = [(d, a1), (d, a2)] := rfl
  have hmem : ∀ p ∈ [(d, a1), (d, a2)], ∃ is, formatItineraryResponseK
      (up (rtCall env (some p.1) (some p.2) dd rd ad cur)).body (.str p.1) (.str p.2) =
      .ok is := by
    intro p hp
    rcases List.mem_cons.mp hp with h | h
    · subst h; exact ⟨[], h1⟩
    · rcases List.mem_cons.mp h with h | h
      · subst h; exact ⟨ys, h2⟩
      · simp at h
  have hloop := flexLoop_ok env up dd rd ad cur [(d, a1), (d, a2)] hmem
  have hbind : ([(d, a1), (d, a2)].bind fun p => pairItins env up dd rd ad cur p.1 p.2) = ys := by
    simp [pairItins, h1, h2]
  have hmain : apiSearchFlex ⟨some [d], some [a1, a2], dd, rd, ad, cur⟩ env up =
      { status := 200
        body := .obj [("results", .arr ((sortByPrice ys).map Itin.toJs))]
        calls := [(d, a1), (d, a2)].map fun p =>
          rtCall env (some p.1) (some p.2) dd rd ad cur } := by
    unfold apiSearchFlex
    dsimp only
    rw [hpairs, hloop]
    dsimp only
    rw [hbind]
    by_cases hz : ys.length = 0
    · rw [List.length_eq_zero] at hz
      subst hz
      simp [sortByPrice, List.insertionSort]
    · rw [if_neg hz]
  rw [hmain]
  exact ⟨rfl, rfl, rfl⟩

/-- C4 witness: the `BRS→FAO` pair fails upstream with an error
payload, the `BRS→LIS` pair succeeds with one itinerary. -/
theorem c4_witness :
    ((fun c : UpstreamCall =>
        if c.params.any (fun p => p.1 == "toId" && p.2 == "FAO-sky") then
          UpstreamResp.mk false 502 (.obj [("error", .str "upstream boom")])
        else UpstreamResp.mk true 200 (.obj [("data", .obj [("itineraries", .arr [.obj []])])]))
      (rtCall none (some "BRS") (some "FAO") none none none none)).ok = false ∧
    formatItineraryResponseK
      ((fun c : UpstreamCall =>
        if c.params.any (fun p => p.1 == "toId" && p.2 == "FAO-sky") then
          UpstreamResp.mk false 502 (.obj [("error", .str "upstream boom")])
        else UpstreamResp.mk true 200 (.obj [("data", .obj [("itineraries", .arr [.obj []])])]))
        (rtCall none (some "BRS") (some "FAO") none none none none)).body
      (.str "BRS") (.str "FAO") = .ok [] ∧
    formatItineraryResponseK
      ((fun c : UpstreamCall =>
        if c.params.any (fun p => p.1 == "toId" && p.2 == "FAO-sky") then
          UpstreamResp.mk false 502 (.obj [("error", .str "upstream boom")])
        else UpstreamResp.mk true 200 (.obj [("data", .obj [("itineraries", .arr [.obj []])])]))
        (rtCall none (some "BRS") (some "LIS") none none none none)).body
      (.str "BRS") (.str "LIS") =
      .ok [normalizeItinCoreK (.str "BRS") (.str "LIS") (.obj [])] ∧
    (apiSearchFlex ⟨some ["BRS"], some ["FAO", "LIS"], none, none, none, none⟩ none
      (fun c : UpstreamCall =>
        if c.params.any (fun p => p.1 == "toId" && p.2 == "FAO-sky") then
          UpstreamResp.mk false 502 (.obj [("error", .str "upstream boom")])
        else UpstreamResp.mk true 200
          (.obj [("data", .obj [("itineraries", .arr [.obj []])])]))).status = 200 ∧
    (apiSearchFlex ⟨some ["BRS"], some ["FAO", "LIS"], none, none, none, none⟩ none
      (fun c : UpstreamCall =>
        if c.params.any (fun p => p.1 == "toId" && p.2 == "FAO-sky") then
          UpstreamResp.mk false 502 (.obj [("error", .str "upstream boom")])
        else UpstreamResp.mk true 200
          (.obj [("data", .obj [("itineraries", .arr [.obj []])])]))).calls.length = 2 := by
  have h := c4_pair_failure_swallowed none
    (fun c : UpstreamCall =>
      if c.params.any (fun p => p.1 == "toId" && p.2 == "FAO-sky") then
        UpstreamResp.mk false 502 (.obj [("error", .str "upstream boom")])
      else UpstreamResp.mk true 200 (.obj [("data", .obj [("itineraries", .arr [.obj []])])]))
    "BRS" "FAO" "LIS" none none none none
    [normalizeItinCoreK (.str "BRS") (.str "LIS") (.obj [])] rfl rfl rfl
  exact ⟨rfl, rfl, rfl, h.1, h.2.1⟩

/-! ## Claim C1 -/

/-- C1 counterexample: `POST /api/search` performs no validation — a
request with no origin still responds 200 and issues one upstream
call (with `fromId = "undefined-sky"`), not a `ValidationError`. -/
theorem c1_counterexample :
    (apiSearch ⟨none, some "JFK", some "2025-06-01", none, none, none⟩ (some "key")
      (fun _ => UpstreamResp.mk true 200 (.obj []))).status = 200 ∧
    (apiSearch ⟨none, some "JFK", some "2025-06-01", none, none, none⟩ (some "key")
      (fun _ => UpstreamResp.mk true 200 (.obj []))).calls.length = 1 := ⟨rfl, rfl⟩

/-- C1 (amended): the three `GET /api/search-flights` handlers
(Sky-Scrapper, request-counter, Kiwi) do answer a request missing
origin, destination or departure date with a 400 response listing the
required field names and attempt no upstream call; the round-trip
`POST /api/search` route, however, performs no such validation (see
the counterexample). -/
theorem c1_get_handlers_validate (env : Option String)
    (up : UpstreamCall → UpstreamResp) (qs : SkyQuery) (qp : P0Query) (qk : KiwiQuery)
    (tz : ℤ) (c : ℕ)
    (hs : (!strTruthy qs.fromQ || !strTruthy qs.toQ || !strTruthy qs.date) = true)
    (hp : (!strTruthy qp.fromQ || !strTruthy qp.toQ || !strTruthy qp.departureDate) = true)
    (hk : (!strTruthy qk.fromQ || !strTruthy qk.toQ || !strTruthy qk.date) = true) :
    skySearchFlights qs env up =
      ⟨400, missingParamsBody ["from", "to", "date"], []⟩ ∧
    p0SearchFlights qp env up c =
      (c, ⟨400, missingParamsBody ["from", "to", "departureDate"], []⟩) ∧
    kiwiSearchFlights qk env tz up =
      ⟨400, missingParamsBody ["from", "to", "date"], []⟩ := by
  refine ⟨?_, ?_, ?_⟩
  · simp [skySearchFlights, hs]
  · simp [p0SearchFlights, hp]
  · simp [kiwiSearchFlights, hk]

/-- C1 witness: requests with every field absent. -/
theorem c1_witness :
    (!strTruthy none || !strTruthy none || !strTruthy none) = true ∧
    skySearchFlights ⟨none, none, none, none, none, none, none, none, none⟩ none
      (fun _ => UpstreamResp.mk true 200 (.obj [])) =
      ⟨400, missingParamsBody ["from", "to", "date"], []⟩ ∧
    p0SearchFlights
      ⟨none, none, none, none, none, none, none, none, none, none, none, none, none, none⟩
      none (fun _ => UpstreamResp.mk true 200 (.obj [])) 0 =
      (0, ⟨400, missingParamsBody ["from", "to", "departureDate"], []⟩) ∧
    kiwiSearchFlights ⟨none, none, none, none, none, none⟩ none 0
      (fun _ => UpstreamResp.mk true 200 (.obj [])) =
      ⟨400, missingParamsBody ["from", "to", "date"], []⟩ := by
  have h := c1_get_handlers_validate none (fun _ => UpstreamResp.mk true 200 (.obj []))
    ⟨none, none, none, none, none, none, none, none, none⟩
    ⟨none, none, none, none, none, none, none, none, none, none, none, none, none, none⟩
    ⟨none, none, none, none, none, none⟩ 0 0 rfl rfl rfl
  exact ⟨rfl, h.1, h.2.1, h.2.2⟩

/-! ## Claim C2 -/

/-- C2 counterexample: `POST /api/search` ignores the upstream status —
an upstream 403 with an error payload is answered 200 with
`{results: []}`, with neither the status nor the payload preserved. -/
theorem c2_counterexample :
    (apiSearch ⟨some "LHR", some "JFK", some "2025-06-01", none, none, none⟩ (some "key")
      (fun _ => UpstreamResp.mk false 403 (.obj [("message", .str "quota exceeded")]))).status =
      200 ∧
    (apiSearch ⟨some "LHR", some "JFK", some "2025-06-01", none, none, none⟩ (some "key")
      (fun _ => UpstreamResp.mk false 403 (.obj [("message", .str "quota exceeded")]))).body =
      .obj [("results", .arr [])] := ⟨rfl, rfl⟩

/-- C2 (amended): the `GET /api/search-flights` handlers do preserve a
failing upstream's status code and raw payload (as `details`): for
every upstream call such a handler attempts whose response is
non-success, the handler's status equals the upstream status and the
`details` field of its body is the upstream payload unchanged — for
the Kiwi variant provided the failing payload is itself non-nullish or
the status is 401 (a nullish payload makes its `data.message` read
throw).  The round-trip `POST /api/search` route instead returns a
success-shaped 200 response (see the counterexample). -/
theorem c2_get_handlers_preserve_upstream_failure (env : Option String)
    (up : UpstreamCall → UpstreamResp) (qs : SkyQuery) (qp : P0Query) (qk : KiwiQuery)
    (tz : ℤ) (c : ℕ) :
    (∀ cl ∈ (skySearchFlights qs env up).calls, (up cl).ok = false →
      (skySearchFlights qs env up).status = (up cl).status ∧
      (skySearchFlights qs env up).body.get "details" = (up cl).body) ∧
    (∀ cl ∈ (p0SearchFlights qp env up c).2.calls, (up cl).ok = false →
      (p0SearchFlights qp env up c).2.status = (up cl).status ∧
      (p0SearchFlights qp env up c).2.body.get "details" = (up cl).body) ∧
    (∀ cl ∈ (kiwiSearchFlights qk env tz up).calls, (up cl).ok = false →
      (up cl).status = 401 ∨ (up cl).body.isNullish = false →
      (kiwiSearchFlights qk env tz up).status = (up cl).status ∧
      (kiwiSearchFlights qk env tz up).body.get "details" = (up cl).body) := by
  refine ⟨?_, ?_, ?_⟩
  · intro cl hcl hko
    by_cases h1 : (!strTruthy qs.fromQ || !strTruthy qs.toQ || !strTruthy qs.date) = true
    · simp [skySearchFlights, h1] at hcl
    · by_cases h2 : strTruthy env
      · have hcl' : cl = skyCall qs (env.getD "") := by
          by_cases h3 : (up (skyCall qs (env.getD ""))).ok = false <;>
            simpa [skySearchFlights, h1, h2, h3] using hcl
        subst hcl'
        have hmain : skySearchFlights qs env up =
            { status := (up (skyCall qs (env.getD ""))).status
              body := .obj [("error", .str "API request failed"),
                ("details", (up (skyCall qs (env.getD ""))).body),
                ("status", .num ((up (skyCall qs (env.getD ""))).status : ℚ))]
              calls := [skyCall qs (env.getD "")] } := by
          simp [skySearchFlights, h1, h2, hko]
        rw [hmain]
        exact ⟨rfl, rfl⟩
      · simp [skySearchFlights, h1, h2] at hcl
  · intro cl hcl hko
    by_cases h1 : (!strTruthy qp.fromQ || !strTruthy qp.toQ ||
        !strTruthy qp.departureDate) = true
    · simp [p0SearchFlights, h1] at hcl
    · by_cases h2 : strTruthy env
      · have hcl' : cl = p0SearchCall qp (env.getD "") := by
          by_cases h3 : (up (p0SearchCall qp (env.getD ""))).ok = false
          · simpa [p0SearchFlights, h1, h2, h3] using hcl
          · by_cases h4 : (up (p0SearchCall qp (env.getD ""))).body.isNullish = true <;>
              simpa [p0SearchFlights, h1, h2, h3, h4] using hcl
        subst hcl'
        have hmain : (p0SearchFlights qp env up c).2 =
            { status := (up (p0SearchCall qp (env.getD ""))).status
              body := .obj [("error", .str "API request failed"),
                ("details", (up (p0SearchCall qp (env.getD ""))).body),
                ("status", .num ((up (p0SearchCall qp (env.getD ""))).status : ℚ))]
              calls := [p0SearchCall qp (env.getD "")] } := by
          simp [p0SearchFlights, h1, h2, hko]
        rw [hmain]
        exact ⟨rfl, rfl⟩
      · simp [p0SearchFlights, h1, h2] at hcl
  · intro cl hcl hko hcase
    by_cases h1 : (!strTruthy qk.fromQ || !strTruthy qk.toQ || !strTruthy qk.date) = true
    · simp [kiwiSearchFlights, h1] at hcl
    · have hcl' : cl = kiwiCall qk tz (kiwiKey env) := by
        by_cases h3 : (up (kiwiCall qk tz (kiwiKey env))).ok = false
        · by_cases h4 : (up (kiwiCall qk tz (kiwiKey env))).status = 401
          · simpa [kiwiSearchFlights, h1, h3, h4] using hcl
          · by_cases h5 : (up (kiwiCall qk tz (kiwiKey env))).body.isNullish = true <;>
              simpa [kiwiSearchFlights, h1, h3, h4, h5] using hcl
        · by_cases h5 : (up (kiwiCall qk tz (kiwiKey env))).body.isNullish = true <;>
            simpa [kiwiSearchFlights, h1, h3, h5] using hcl
      subst hcl'
      by_cases h401 : (up (kiwiCall qk tz (kiwiKey env))).status = 401
      · have hmain : kiwiSearchFlights qk env tz up =
            { status := (up (kiwiCall qk tz (kiwiKey env))).status
              body := .obj [("error", .str "API request failed"),
                ("details", (up (kiwiCall qk tz (kiwiKey env))).body),
                ("status", .num ((up (kiwiCall qk tz (kiwiKey env))).status : ℚ)),
                ("message", .str "API key invalid or expired")]
              calls := [kiwiCall qk tz (kiwiKey env)] } := by
          simp [kiwiSearchFlights, h1, hko, h401]
        rw [hmain]
        exact ⟨rfl, rfl⟩
      · have hnn : (up (kiwiCall qk tz (kiwiKey env))).body.isNullish = false := by
          rcases hcase with h | h
          · exact absurd h h401
          · exact h
        have hmain : kiwiSearchFlights qk env tz up =
            { status := (up (kiwiCall qk tz (kiwiKey env))).status
              body := .obj [("error", .str "API request failed"),
                ("details", (up (kiwiCall qk tz (kiwiKey env))).body),
                ("status", .num ((up (kiwiCall qk tz (kiwiKey env))).status : ℚ)),
                ("message", jsOr ((up (kiwiCall qk tz (kiwiKey env))).body.get "message")
                  (.str "Unknown error"))]
              calls := [kiwiCall qk tz (kiwiKey env)] } := by
          simp [kiwiSearchFlights, h1, hko, h401, hnn]
        rw [hmain]
        exact ⟨rfl, rfl⟩

/-- C2 witness: the Sky-Scrapper handler at a valid query under an
upstream 502. -/
theorem c2_witness :
    ((fun _ : UpstreamCall => UpstreamResp.mk false 502 (.obj [("oops", .str "x")]))
      (skyCall ⟨some "LHR", some "JFK", some "2025-06-01", none, none, none, none, none, none⟩
        "key")).ok = false ∧
    (skySearchFlights
      ⟨some "LHR", some "JFK", some "2025-06-01", none, none, none, none, none, none⟩
      (some "key")
      (fun _ => UpstreamResp.mk false 502 (.obj [("oops", .str "x")]))).status = 502 ∧
    (skySearchFlights
      ⟨some "LHR", some "JFK", some "2025-06-01", none, none, none, none, none, none⟩
      (some "key")
      (fun _ => UpstreamResp.mk false 502 (.obj [("oops", .str "x")]))).body.get "details" =
      .obj [("oops", .str "x")] := by
  have h := (c2_get_handlers_preserve_upstream_failure (some "key")
    (fun _ => UpstreamResp.mk false 502 (.obj [("oops", .str "x")]))
    ⟨some "LHR", some "JFK", some "2025-06-01", none, none, none, none, none, none⟩
    ⟨none, none, none, none, none, none, none, none, none, none, none, none, none, none⟩
    ⟨none, none, none, none, none, none⟩ 0 0).1
    (skyCall ⟨some "LHR", some "JFK", some "2025-06-01", none, none, none, none, none, none⟩
      "key")
    (List.mem_singleton_self _) rfl
  exact ⟨rfl, h.1, h.2⟩

/-! ## Claim C7 -/

/-- C7 counterexample: a request with no return date (and no explicit
`tripType`) is sent to the round-trip endpoint `/flights/search-return`,
not the one-way endpoint — the endpoint choice follows `tripType`
(default `'return'`), not return-date presence. -/
theorem c7_counterexample :
    ((p0SearchFlights
      ⟨some "LHR", some "JFK", some "2025-06-01", none, none, none, none, none, none, none,
        none, none, none, none⟩
      (some "key") (fun _ => UpstreamResp.mk true 200 (.obj [])) 0).2.calls.map
        fun cl => cl.path) = ["/flights/search-return"] ∧
    ((p0SearchFlights
      ⟨some "LHR", some "JFK", some "2025-06-01", none, none, none, none, none, none, none,
        none, none, none, none⟩
      (some "key") (fun _ => UpstreamResp.mk true 200 (.obj [])) 0).2.calls.map
        fun cl => cl.params.lookup "returnDate") = [none] := ⟨rfl, rfl⟩

/-- C7 (amended): the upstream endpoint of the request-counter search
is the one-way one exactly when the request carries
`tripType = "oneway"` (any other or absent `tripType` selects the
round-trip endpoint, return date or not), and the `returnDate`
parameter is sent exactly when the effective trip type is `"return"`
and a return date is present; when validation and the key check pass,
the handler attempts exactly that call. -/
theorem c7_endpoint_follows_trip_type (q : P0Query) (key : String) :
    ((p0SearchCall q key).path = "/flights/search-oneway" ↔
      q.tripType.getD "return" = "oneway") ∧
    ((p0SearchCall q key).path = "/flights/search-return" ↔
      q.tripType.getD "return" ≠ "oneway") ∧
    ((∃ v, ("returnDate", v) ∈ (p0SearchCall q key).params) ↔
      (q.tripType.getD "return" = "return" ∧ strTruthy q.returnDate = true)) ∧
    (∀ env up c, (!strTruthy q.fromQ || !strTruthy q.toQ ||
        !strTruthy q.departureDate) = false → strTruthy env = true →
      (p0SearchFlights q env up c).2.calls = [p0SearchCall q (env.getD "")]) := by
  refine ⟨?_, ?_, ?_, ?_⟩
  · by_cases h : q.tripType.getD "return" = "oneway" <;> simp [p0SearchCall, h]
  · by_cases h : q.tripType.getD "return" = "oneway" <;> simp [p0SearchCall, h]
  · by_cases h : (q.tripType.getD "return" = "return" && strTruthy q.returnDate) = true
    · rw [Bool.and_eq_true, decide_eq_true_eq] at h
      simp [p0SearchCall, h.1, h.2]
    · rw [Bool.and_eq_true] at h
      push_neg at h
      constructor
      · rintro ⟨v, hv⟩
        by_cases hr : q.tripType.getD "return" = "return"
        · have := h (by simp [hr])
          simp [p0SearchCall, hr, this] at hv
        · simp [p0SearchCall, hr] at hv
      · rintro ⟨hr, hv⟩
        exact absurd hv (h (by simp [hr]))
  · intro env up c hvalid henv
    by_cases h3 : (up (p0SearchCall q (env.getD ""))).ok = false
    · simp [p0SearchFlights, hvalid, henv, h3]
    · by_cases h4 : (up (p0SearchCall q (env.getD ""))).body.isNullish = true <;>
        simp [p0SearchFlights, hvalid, henv, h3, h4]

/-- C7 witness: an explicit one-way request and a defaulted round-trip
request. -/
theorem c7_witness :
    (p0SearchCall
      ⟨some "LHR", some "JFK", some "2025-06-01", none, some "oneway", none, none, none,
        none, none, none, none, none, none⟩ "key").path = "/flights/search-oneway" ∧
    (p0SearchCall
      ⟨some "LHR", some "JFK", some "2025-06-01", some "2025-07-01", none, none, none, none,
        none, none, none, none, none, none⟩ "key").path = "/flights/search-return" ∧
    (∃ v, ("returnDate", v) ∈ (p0SearchCall
      ⟨some "LHR", some "JFK", some "2025-06-01", some "2025-07-01", none, none, none, none,
        none, none, none, none, none, none⟩ "key").params) ∧
    (!strTruthy (some "LHR") || !strTruthy (some "JFK") ||
      !strTruthy (some "2025-06-01")) = false ∧
    strTruthy (some "key") = true ∧
    (p0SearchFlights
      ⟨some "LHR", some "JFK", some "2025-06-01", none, some "oneway", none, none, none,
        none, none, none, none, none, none⟩
      (some "key") (fun _ => UpstreamResp.mk true 200 (.obj [])) 0).2.calls =
      [p0SearchCall
        ⟨some "LHR", some "JFK", some "2025-06-01", none, some "oneway", none, none, none,
          none, none, none, none, none, none⟩ "key"] :=
  ⟨(c7_endpoint_follows_trip_type
      ⟨some "LHR", some "JFK", some "2025-06-01", none, some "oneway", none, none, none,
        none, none, none, none, none, none⟩ "key").1.mpr rfl,
    (c7_endpoint_follows_trip_type
      ⟨some "LHR", some "JFK", some "2025-06-01", some "2025-07-01", none, none, none, none,
        none, none, none, none, none, none⟩ "key").2.1.mpr (by decide),
    (c7_endpoint_follows_trip_type
      ⟨some "LHR", some "JFK", some "2025-06-01", some "2025-07-01", none, none, none, none,
        none, none, none, none, none, none⟩ "key").2.2.1.mpr ⟨rfl, rfl⟩,
    rfl, rfl,
    (c7_endpoint_follows_trip_type
      ⟨some "LHR", some "JFK", some "2025-06-01", none, some "oneway", none, none, none,
        none, none, none, none, none, none⟩ "key").2.2.2
      (some "key") (fun _ => UpstreamResp.mk true 200 (.obj [])) 0 rfl rfl⟩

/-! ## Claim C8 -/

/-- Each dispatched request advances the counter by exactly the number
of upstream calls it attempted (zero when validation or the key check
short-circuits, one otherwise). -/
theorem p0Step_count (env : Option String) (up : UpstreamCall → UpstreamResp)
    (e : P0Event) (c : ℕ) :
    (p0Step env up c e).1 = c + (p0Step env up c e).2.calls.length := by
  cases e with
  | autocomplete q =>
    by_cases h1 : (!strTruthy q) = true
    · simp [p0Step, p0Autocomplete, h1]
    · by_cases h2 : strTruthy env
      · by_cases h3 : (up (p0AcCall q (env.getD ""))).ok = false <;>
          simp [p0Step, p0Autocomplete, h1, h2, h3]
      · simp [p0Step, p0Autocomplete, h1, h2]
  | search q =>
    by_cases h1 : (!strTruthy q.fromQ || !strTruthy q.toQ ||
        !strTruthy q.departureDate) = true
    · simp [p0Step, p0SearchFlights, h1]
    · by_cases h2 : strTruthy env
      · by_cases h3 : (up (p0SearchCall q (env.getD ""))).ok = false
        · simp [p0Step, p0SearchFlights, h1, h2, h3]
        · by_cases h4 : (up (p0SearchCall q (env.getD ""))).body.isNullish = true <;>
            simp [p0Step, p0SearchFlights, h1, h2, h3, h4]
      · simp [p0Step, p0SearchFlights, h1, h2]
  | requestCountQuery => simp [p0Step, p0RequestCount]

/-- Over any run, the final counter is the starting counter plus the
total number of upstream calls attempted. -/
theorem p0Run_count (env : Option String) (up : UpstreamCall → UpstreamResp) :
    ∀ (es : List P0Event) (c : ℕ), (p0Run env up c es).1 =
      c + ((p0Run env up c es).2.map fun r => r.calls.length).sum
  | [], c => by simp [p0Run]
  | e :: es, c => by
    have hstep := p0Step_count env up e c
    have ih := p0Run_count env up es (p0Step env up c e).1
    simp only [p0Run, List.map_cons, List.sum_cons]
    omega

/-- C8: the request-budget counter starts at zero, each incoming
request advances it by exactly the number of upstream calls it
attempts (one per autocomplete or search that reaches the fetch), it
never decreases, over any run from process start it equals the total
number of upstream calls attempted, and `/api/request-count` reports
`{count, limit: 150, remaining: 150 - count}`. -/
theorem c8_request_budget_counter (env : Option String)
    (up : UpstreamCall → UpstreamResp) :
    p0InitialCount = 0 ∧
    (∀ e c, (p0Step env up c e).1 = c + (p0Step env up c e).2.calls.length) ∧
    (∀ e c, c ≤ (p0Step env up c e).1) ∧
    (∀ es, (p0Run env up p0InitialCount es).1 =
      ((p0Run env up p0InitialCount es).2.map fun r => r.calls.length).sum) ∧
    (∀ c, p0RequestCount c =
      ⟨200, .obj [("count", .num c), ("limit", .num 150),
        ("remaining", .num (150 - (c : ℚ)))], []⟩) :=
  ⟨rfl, fun e c => p0Step_count env up e c,
    fun e c => by rw [p0Step_count env up e c]; exact Nat.le_add_right _ _,
    fun es => by simpa [p0InitialCount] using p0Run_count env up es 0,
    fun _ => rfl⟩

/-! ## Claim C9 -/

/-- C9 counterexample: the Kiwi variant with no `KIWI_API_KEY` in the
environment answers a valid search with a 200 (not a configuration
error) and calls the upstream with the substituted `picky` test key. -/
theorem c9_counterexample :
    (kiwiSearchFlights ⟨some "LHR", some "JFK", some "2025-06-01", none, none, none⟩ none 0
      (fun _ => UpstreamResp.mk true 200 (.obj [("data", .arr [])]))).status = 200 ∧
    ((kiwiSearchFlights ⟨some "LHR", some "JFK", some "2025-06-01", none, none, none⟩ none 0
      (fun _ => UpstreamResp.mk true 200 (.obj [("data", .arr [])]))).calls.map
        fun cl => cl.key) = [some "picky"] := ⟨rfl, rfl⟩

/-- C9 (amended): with the API key absent (or empty) in the
environment, the Sky-Scrapper search and location handlers and the
request-counter search and autocomplete handlers answer any valid
request with a 500 configuration-error body and attempt no upstream
call; the Kiwi variant instead substitutes the `picky` test key and
does call the upstream. -/
theorem c9_missing_key_paths (env : Option String) (up : UpstreamCall → UpstreamResp)
    (qs : SkyQuery) (lq : Option String) (qp : P0Query) (aq : Option String)
    (qk : KiwiQuery) (tz : ℤ) (c : ℕ)
    (henv : strTruthy env = false)
    (hqs : (!strTruthy qs.fromQ || !strTruthy qs.toQ || !strTruthy qs.date) = false)
    (hlq : (!strTruthy lq) = false)
    (hqp : (!strTruthy qp.fromQ || !strTruthy qp.toQ || !strTruthy qp.departureDate) = false)
    (haq : (!strTruthy aq) = false)
    (hqk : (!strTruthy qk.fromQ || !strTruthy qk.toQ || !strTruthy qk.date) = false) :
    skySearchFlights qs env up =
      ⟨500, .obj [("error", .str "API key not configured"),
        ("message", .str "Please set RAPIDAPI_KEY environment variable in Render")], []⟩ ∧
    skySearchLocation lq env up =
      ⟨500, .obj [("error", .str "API key not configured")], []⟩ ∧
    p0SearchFlights qp env up c =
      (c, ⟨500, .obj [("error", .str "API key not configured")], []⟩) ∧
    p0Autocomplete aq env up c =
      (c, ⟨500, .obj [("error", .str "API key not configured"),
        ("message", .str "Please set RAPIDAPI_KEY environment variable in Render")], []⟩) ∧
    kiwiKey env = "picky" ∧
    (kiwiSearchFlights qk env tz up).calls = [kiwiCall qk tz "picky"] := by
  have hk : kiwiKey env = "picky" := by
    cases env with
    | none => rfl
    | some s =>
      simp [strTruthy] at henv
      simp [kiwiKey, henv]
  refine ⟨?_, ?_, ?_, ?_, hk, ?_⟩
  · simp [skySearchFlights, hqs, henv]
  · simp [skySearchLocation, hlq, henv]
  · simp [p0SearchFlights, hqp, henv]
  · simp [p0Autocomplete, haq, henv]
  · by_cases h3 : (up (kiwiCall qk tz "picky")).ok = false
    · by_cases h4 : (up (kiwiCall qk tz "picky")).status = 401
      · simp [kiwiSearchFlights, hqk, hk, h3, h4]
      · by_cases h5 : (up (kiwiCall qk tz "picky")).body.isNullish = true <;>
          simp [kiwiSearchFlights, hqk, hk, h3, h4, h5]
    · by_cases h5 : (up (kiwiCall qk tz "picky")).body.isNullish = true <;>
        simp [kiwiSearchFlights, hqk, hk, h3, h5]

/-- C9 witness: an absent environment key with valid queries. -/
theorem c9_witness :
    strTruthy none = false ∧
    (!strTruthy (some "LHR") || !strTruthy (some "JFK") ||
      !strTruthy (some "2025-06-01")) = false ∧
    skySearchFlights ⟨some "LHR", some "JFK", some "2025-06-01", none, none, none, none,
        none, none⟩ none (fun _ => UpstreamResp.mk true 200 (.obj [])) =
      ⟨500, .obj [("error", .str "API key not configured"),
        ("message", .str "Please set RAPIDAPI_KEY environment variable in Render")], []⟩ ∧
    kiwiKey none = "picky" ∧
    (kiwiSearchFlights ⟨some "LHR", some "JFK", some "2025-06-01", none, none, none⟩ none 0
      (fun _ => UpstreamResp.mk true 200 (.obj []))).calls =
      [kiwiCall ⟨some "LHR", some "JFK", some "2025-06-01", none, none, none⟩ 0 "picky"] := by
  have h := c9_missing_key_paths none (fun _ => UpstreamResp.mk true 200 (.obj []))
    ⟨some "LHR", some "JFK", some "2025-06-01", none, none, none, none, none, none⟩
    (some "q")
    ⟨some "LHR", some "JFK", some "2025-06-01", none, none, none, none, none, none, none,
      none, none, none, none⟩
    (some "q")
    ⟨some "LHR", some "JFK", some "2025-06-01", none, none, none⟩ 0 0
    rfl rfl rfl rfl rfl rfl
  exact ⟨rfl, rfl, h.1, h.2.2.2.2.1, h.2.2.2.2.2⟩
